import Mathlib

/-!
Verification of the TaskIQ scoring core (src/backend/app/ai.py) and the
request validation it relies on (src/backend/app/schemas.py).

The two scoring functions are pure; they are embedded shallowly:

* Python ints become `Int`, optional fields become `Option`.
* A `datetime` value is represented by its naive-UTC epoch time in seconds
  (an `Int`); the wall clock `datetime.utcnow()` becomes an explicit `now`
  parameter.  Calendar-date subtraction in the priority scorer is
  represented by the resulting day difference directly.
* The defensive string branch of the deadline factor is represented by a
  constructor carrying the raw text together with the result of
  `dateutil.parser.parse` (`none` when that parser raises).
* Python truthiness (`if estimated_duration:`, `if deadline:`,
  `if description and ...`) is modelled explicitly: `None`, `0` and the
  empty string are falsy.
-/

namespace TaskIQ

/-- Does `hay` start with `needle`? (character lists) -/
def startsWithChars : List Char → List Char → Bool
  | _, [] => true
  | [], _ :: _ => false
  | c :: cs, d :: ds => c == d && startsWithChars cs ds

/-- Python's substring containment `needle in hay` on character lists. -/
def subList (needle : List Char) : List Char → Bool
  | [] => needle.isEmpty
  | c :: cs => startsWithChars (c :: cs) needle || subList needle cs

/-- Python `str.lower()` (ASCII case mapping; the keyword lists are ASCII). -/
def lowerStr (s : String) : String := ⟨s.data.map Char.toLower⟩

/-- Characters removed by Python `str.strip()`. -/
def isSpaceChar (c : Char) : Bool :=
  c == ' ' || c == '\t' || c == '\n' || c == '\r' || c == '\x0b' || c == '\x0c'

/-- Python `str.strip()`: drop leading and trailing whitespace. -/
def pyStrip (s : String) : String :=
  ⟨((s.data.dropWhile isSpaceChar).reverse.dropWhile isSpaceChar).reverse⟩

/-- Truthiness of `Optional[int]` in Python: `None` and `0` are falsy. -/
def pyTruthyInt : Option Int → Bool
  | none => false
  | some n => n != 0

/-- Truthiness of `Optional[str]` in Python: `None` and `""` are falsy. -/
def pyTruthyStr : Option String → Bool
  | none => false
  | some s => s != ""

/-- Python `x or 0` on an `Optional[int]`: `None` becomes `0`
(a present `0` stays `0`, so the value case is the identity). -/
def orZero : Option Int → Int
  | none => 0
  | some n => n

/-!
## Priority scorer (`_compute_score`, src/backend/app/ai.py lines 10-15)

`deadline` is represented by the day difference
`(deadline.date() - datetime.now().date()).days` that the source computes
from it; a `datetime` object is always truthy, so `Option` captures the
`if deadline:` guard exactly.
-/

/-- `_compute_score(deadline, estimated_duration)` from src/backend/app/ai.py. -/
def _compute_score (deadline : Option Int) (estimated_duration : Option Int) : Int :=
  let days_until_deadline : Int :=
    match deadline with
    | none => 0
    | some d => d
  let score := 100 - days_until_deadline * 5 - orZero estimated_duration * 3
  max 1 (min 100 score)

/-- Modelled from the spec: the priority formula as §4.2 words it —
`100 - days_until_deadline*5 - (estimated_duration or 0)*3`, with values
below 1 becoming 1 and values above 100 becoming 100. -/
def compute_priority_spec (deadline : Option Int) (estimated_duration : Option Int) : Int :=
  let days : Int :=
    match deadline with
    | none => 0
    | some d => d
  let raw := 100 - days * 5 - orZero estimated_duration * 3
  if raw < 1 then 1 else if raw > 100 then 100 else raw

/-!
## Size estimator (`_estimate_task_size`, src/backend/app/ai.py lines 84-223)
-/

/-- A value reaching the `deadline` parameter of `_estimate_task_size`:
either an already-parsed `datetime` (naive-UTC epoch seconds) or a textual
timestamp, carried together with the outcome of `dateutil.parser.parse`
(`none` when the parser raises). -/
inductive DeadlineVal : Type
  | dt (t : Int)
  | text (raw : String) (parsed : Option Int)
deriving DecidableEq

/-- Python truthiness of a deadline value: a `datetime` is always truthy,
a string is truthy iff non-empty. -/
def pyTruthyVal : DeadlineVal → Bool
  | .dt _ => true
  | .text raw _ => raw != ""

/-- The parsed timestamp of a deadline value, when one exists. -/
def deadlineParse : DeadlineVal → Option Int
  | .dt t => some t
  | .text _ p => p

/-- `days_until = delta.total_seconds() / 86400` as an exact rational. -/
def daysUntil (t now : Int) : Rat := ((t - now : Int) : Rat) / 86400

/-- Round a rational to the nearest tenth, ties to even — models CPython's
one-decimal rounding in `f"{x:.1f}"` (binary-float artifacts are not
modelled; no theorem below depends on the rendered digits). -/
def roundHalfEvenTenths (q : Rat) : Int :=
  let r := 10 * q.num
  let d : Int := (q.den : Int)
  let k := Int.fdiv r d
  let rem := r - k * d
  if 2 * rem > d then k + 1
  else if 2 * rem < d then k
  else if k % 2 = 0 then k else k + 1

/-- Render a rational with one decimal digit, as Python `f"{x:.1f}"` does. -/
def fmt1 (q : Rat) : String :=
  let t := roundHalfEvenTenths q
  let sign := if t < 0 then "-" else ""
  let a := t.natAbs
  sign ++ toString (a / 10) ++ "." ++ toString (a % 10)

/-- Factor 1 — estimated duration (src/backend/app/ai.py lines 105-120).
The source guard is `if estimated_duration:`, i.e. Python truthiness, so
both `None` and `0` fall into the 10-point `unknown` branch. -/
def durationFactor (estimated_duration : Option Int) : Int × String :=
  if pyTruthyInt estimated_duration then
    let d := orZero estimated_duration
    if d ≤ 2 then (5, s!"duration: {d}h (quick)")
    else if d ≤ 8 then (15, s!"duration: {d}h (moderate)")
    else if d ≤ 24 then (30, s!"duration: {d}h (substantial)")
    else (40, s!"duration: {d}h (extensive)")
  else (10, "duration: unknown (assumed moderate)")

/-- The fixed complex-keyword set (src/backend/app/ai.py lines 128-129). -/
def complex_keywords : List String :=
  ["refactor", "redesign", "migrate", "integrate", "architecture",
   "security", "performance", "optimization", "database", "api"]

/-- The fixed simple-keyword set (src/backend/app/ai.py line 130). -/
def simple_keywords : List String :=
  ["fix", "update", "add", "remove", "change", "typo", "text"]

/-- `sum(1 for kw in kws if kw in txt)`: how many keywords occur as
substrings of `txt`. -/
def countMatches (kws : List String) (txt : String) : Nat :=
  (kws.filter (fun kw => subList kw.data txt.data)).length

/-- `combined_text = title.lower() + " " + (description or "").lower()`
(src/backend/app/ai.py lines 123-125): the two lower-cased fields joined
by a single space. -/
def combined_text (title : String) (description : Option String) : String :=
  lowerStr title ++ " " ++ lowerStr (description.getD "")

/-- Factor 2 — keyword complexity (src/backend/app/ai.py lines 122-146). -/
def keywordFactor (title : String) (description : Option String) : Int × String :=
  let txt := combined_text title description
  let complex_count := countMatches complex_keywords txt
  let simple_count := countMatches simple_keywords txt
  if complex_count ≥ 2 then (30, "complexity: high (multiple complex keywords)")
  else if complex_count ≥ 1 then (20, "complexity: moderate (complex keywords)")
  else if simple_count ≥ 1 then (5, "complexity: low (simple task)")
  else (15, "complexity: moderate (neutral)")

/-- Modelled from the spec claim wording: identical tiers, but the scan
text is the lower-cased concatenation of title and description with no
separator.  Kept only to compare against `keywordFactor`, which mirrors
the source and inserts a space between the two fields. -/
def keywordFactorSpec (title : String) (description : Option String) : Int × String :=
  let txt := lowerStr (title ++ description.getD "")
  let complex_count := countMatches complex_keywords txt
  let simple_count := countMatches simple_keywords txt
  if complex_count ≥ 2 then (30, "complexity: high (multiple complex keywords)")
  else if complex_count ≥ 1 then (20, "complexity: moderate (complex keywords)")
  else if simple_count ≥ 1 then (5, "complexity: low (simple task)")
  else (15, "complexity: moderate (neutral)")

/-- Factor 3 — description length (src/backend/app/ai.py lines 148-156).
The guards are `if description and len(description) > 200` and
`elif description and len(description) > 50`. -/
def scopeFactor (description : Option String) : Int × String :=
  if pyTruthyStr description ∧ (description.getD "").length > 200 then
    (15, "scope: detailed requirements")
  else if pyTruthyStr description ∧ (description.getD "").length > 50 then
    (8, "scope: moderate requirements")
  else (3, "scope: brief requirements")

/-- Factor 4 — dependencies (src/backend/app/ai.py lines 158-161): points
and clause only when `has_dependencies` is true. -/
def dependenciesFactor (has_dependencies : Bool) : Int × List String :=
  if has_dependencies then (15, ["dependencies: yes (coordination needed)"])
  else (0, [])

/-- Factor 5 — deadline urgency (src/backend/app/ai.py lines 163-205).
The outer guard is `if deadline:` (Python truthiness); a parse failure is
caught and recorded as a clause with no points. -/
def deadlineFactor (deadline : Option DeadlineVal) (now : Int) : Int × List String :=
  match deadline with
  | none => (0, [])
  | some dl =>
    if pyTruthyVal dl then
      match deadlineParse dl with
      | none => (0, ["deadline: could not parse"])
      | some t =>
        let days_until := daysUntil t now
        if days_until < 0 then
          let a := fmt1 (-days_until)
          (15, [s!"deadline: overdue by {a} days (critical)"])
        else if days_until ≤ 1 then
          let a := fmt1 days_until
          (15, [s!"deadline: {a} days (critical)"])
        else if days_until ≤ 3 then
          let a := fmt1 days_until
          (12, [s!"deadline: {a} days (very urgent)"])
        else if days_until ≤ 7 then
          let a := fmt1 days_until
          (8, [s!"deadline: {a} days (urgent)"])
        else if days_until ≤ 14 then
          let a := fmt1 days_until
          (4, [s!"deadline: {a} days (moderate urgency)"])
        else
          let a := fmt1 days_until
          (0, [s!"deadline: {a} days (comfortable)"])
    else (0, [])

/-- The accumulated `complexity_score`: the factors are summed in source
order (duration, keywords, description length, dependencies, deadline). -/
def complexityScore (title : String) (description : Option String)
    (estimated_duration : Option Int) (deadline : Option DeadlineVal)
    (has_dependencies : Bool) (now : Int) : Int :=
  (durationFactor estimated_duration).1
    + (keywordFactor title description).1
    + (scopeFactor description).1
    + (dependenciesFactor has_dependencies).1
    + (deadlineFactor deadline now).1

/-- The `factors` list, appended in source order. -/
def factorsList (title : String) (description : Option String)
    (estimated_duration : Option Int) (deadline : Option DeadlineVal)
    (has_dependencies : Bool) (now : Int) : List String :=
  [(durationFactor estimated_duration).2,
   (keywordFactor title description).2,
   (scopeFactor description).2]
    ++ (dependenciesFactor has_dependencies).2
    ++ (deadlineFactor deadline now).2

/-- The score-to-size thresholds (src/backend/app/ai.py lines 207-218). -/
def sizeOfScore (complexity_score : Int) : String :=
  if complexity_score ≤ 23 then "XS"
  else if complexity_score ≤ 46 then "S"
  else if complexity_score ≤ 69 then "M"
  else if complexity_score ≤ 92 then "L"
  else "XL"

/-- The rationale string
`f"Score: {complexity_score}/115. Factors: {'; '.join(factors)}"`. -/
def rationaleOf (title : String) (description : Option String)
    (estimated_duration : Option Int) (deadline : Option DeadlineVal)
    (has_dependencies : Bool) (now : Int) : String :=
  "Score: "
    ++ toString (complexityScore title description estimated_duration deadline has_dependencies now)
    ++ "/115. Factors: "
    ++ String.intercalate "; " (factorsList title description estimated_duration deadline has_dependencies now)

/-- `_estimate_task_size` (src/backend/app/ai.py lines 84-223): the
(size, rationale) pair. -/
def _estimate_task_size (title : String) (description : Option String)
    (estimated_duration : Option Int) (deadline : Option DeadlineVal)
    (has_dependencies : Bool) (now : Int) : String × String :=
  (sizeOfScore (complexityScore title description estimated_duration deadline has_dependencies now),
   rationaleOf title description estimated_duration deadline has_dependencies now)

/-!
## Request validation at the boundary (src/backend/app/schemas.py,
`TaskSizeRequest` validators) and the `/ai/size` pipeline.
-/

/-- The fields of `TaskSizeRequest` that reach the estimator. -/
structure TaskSizeRequest where
  title : String
  description : Option String
  estimated_duration : Option Int
  deadline : Option DeadlineVal
  has_dependencies : Bool
deriving DecidableEq

/-- `validate_title` (schemas.py): `if not v or not v.strip()` rejects the
request with `Title cannot be empty`. -/
def validate_title (v : String) : Except String String :=
  if v = "" ∨ pyStrip v = "" then Except.error "Title cannot be empty"
  else Except.ok v

/-- `validate_estimated_duration` (schemas.py): a present negative value is
rejected with `Estimated duration cannot be negative`. -/
def validate_estimated_duration (v : Option Int) : Except String (Option Int) :=
  match v with
  | some n =>
    if n < 0 then Except.error "Estimated duration cannot be negative"
    else Except.ok v
  | none => Except.ok v

/-- The `/ai/size` boundary: pydantic runs the field validators and rejects
the request before the handler calls `_estimate_task_size`. -/
def ai_size (req : TaskSizeRequest) (now : Int) : Except String (String × String) :=
  match validate_title req.title with
  | Except.error e => Except.error e
  | Except.ok _ =>
    match validate_estimated_duration req.estimated_duration with
    | Except.error e => Except.error e
    | Except.ok _ =>
      Except.ok (_estimate_task_size req.title req.description req.estimated_duration
        req.deadline req.has_dependencies now)

end TaskIQ

namespace TaskIQ

/-!
## Helper lemmas: per-factor ranges and characterizations
-/

/-- Python truthiness of the optional deadline as a whole. -/
def deadlineTruthy : Option DeadlineVal → Bool
  | none => false
  | some v => pyTruthyVal v

theorem durationFactor_bounds (d : Option Int) :
    5 ≤ (durationFactor d).1 ∧ (durationFactor d).1 ≤ 40 := by
  rcases d with _ | n
  · decide
  · simp only [durationFactor, pyTruthyInt, orZero]
    split_ifs <;> norm_num

theorem durationFactor_some_ne_zero (d : Int) (h : d ≠ 0) :
    (durationFactor (some d)).1 =
      if d ≤ 2 then 5 else if d ≤ 8 then 15 else if d ≤ 24 then 30 else 40 := by
  simp [durationFactor, pyTruthyInt, orZero, h, apply_ite Prod.fst]

theorem keywordFactor_bounds (t : String) (ds : Option String) :
    5 ≤ (keywordFactor t ds).1 ∧ (keywordFactor t ds).1 ≤ 30 := by
  simp only [keywordFactor]
  split_ifs <;> norm_num

theorem scopeFactor_bounds (ds : Option String) :
    3 ≤ (scopeFactor ds).1 ∧ (scopeFactor ds).1 ≤ 15 := by
  simp only [scopeFactor]
  split_ifs <;> norm_num

theorem dependenciesFactor_bounds (b : Bool) :
    0 ≤ (dependenciesFactor b).1 ∧ (dependenciesFactor b).1 ≤ 15 := by
  cases b <;> decide

theorem deadlineFactor_bounds (dl : Option DeadlineVal) (now : Int) :
    0 ≤ (deadlineFactor dl now).1 ∧ (deadlineFactor dl now).1 ≤ 15 := by
  rcases dl with _ | v
  · simp [deadlineFactor]
  · rcases v with t | ⟨raw, p⟩
    · simp only [deadlineFactor, pyTruthyVal, deadlineParse]
      split_ifs <;> norm_num
    · rcases p with _ | t
      · simp only [deadlineFactor, pyTruthyVal, deadlineParse]
        split_ifs <;> norm_num
      · simp only [deadlineFactor, pyTruthyVal, deadlineParse]
        split_ifs <;> norm_num

theorem deadlineFactor_dt_fst (t now : Int) :
    (deadlineFactor (some (DeadlineVal.dt t)) now).1 =
      if daysUntil t now < 0 then 15
      else if daysUntil t now ≤ 1 then 15
      else if daysUntil t now ≤ 3 then 12
      else if daysUntil t now ≤ 7 then 8
      else if daysUntil t now ≤ 14 then 4
      else 0 := by
  simp [deadlineFactor, pyTruthyVal, deadlineParse, apply_ite Prod.fst]

theorem dependenciesFactor_snd_length (b : Bool) :
    (dependenciesFactor b).2.length = if b then 1 else 0 := by
  cases b <;> rfl

theorem deadlineFactor_snd_length (dl : Option DeadlineVal) (now : Int) :
    (deadlineFactor dl now).2.length = if deadlineTruthy dl then 1 else 0 := by
  rcases dl with _ | v
  · rfl
  · rcases v with t | ⟨raw, p⟩
    · simp only [deadlineFactor, deadlineTruthy, pyTruthyVal, deadlineParse]
      split_ifs <;> rfl
    · rcases p with _ | t
      · simp only [deadlineFactor, deadlineTruthy, pyTruthyVal, deadlineParse]
        split_ifs <;> rfl
      · simp only [deadlineFactor, deadlineTruthy, pyTruthyVal, deadlineParse]
        split_ifs <;> rfl

end TaskIQ

namespace TaskIQ

/-!
## Claim theorems
-/

/-- C1: for every input to the size estimator the accumulated
`complexity_score` is an integer in [0,115] and the returned size is the
one picked by the fixed thresholds (≤23 XS, ≤46 S, ≤69 M, ≤92 L, else XL);
those buckets are a total, non-overlapping, contiguous partition of the
integer range. -/
theorem complexity_score_range_and_size_partition :
    (∀ title description estimated_duration deadline has_dependencies now,
      0 ≤ complexityScore title description estimated_duration deadline has_dependencies now
      ∧ complexityScore title description estimated_duration deadline has_dependencies now ≤ 115
      ∧ (_estimate_task_size title description estimated_duration deadline has_dependencies now).1
          = sizeOfScore (complexityScore title description estimated_duration deadline has_dependencies now))
    ∧ (∀ n : Int,
        (sizeOfScore n = "XS" ↔ n ≤ 23)
        ∧ (sizeOfScore n = "S" ↔ 23 < n ∧ n ≤ 46)
        ∧ (sizeOfScore n = "M" ↔ 46 < n ∧ n ≤ 69)
        ∧ (sizeOfScore n = "L" ↔ 69 < n ∧ n ≤ 92)
        ∧ (sizeOfScore n = "XL" ↔ 92 < n)) := by
  constructor
  · intro t ds d dl dep now
    obtain ⟨ha, hb⟩ := durationFactor_bounds d
    obtain ⟨hc, hd⟩ := keywordFactor_bounds t ds
    obtain ⟨he, hf⟩ := scopeFactor_bounds ds
    obtain ⟨hg, hh⟩ := dependenciesFactor_bounds dep
    obtain ⟨hi, hj⟩ := deadlineFactor_bounds dl now
    refine ⟨?_, ?_, rfl⟩ <;> · unfold complexityScore; omega
  · intro n
    unfold sizeOfScore
    split_ifs with h1 h2 h3 h4
    · exact ⟨iff_of_true rfl h1, iff_of_false (by decide) (by omega),
        iff_of_false (by decide) (by omega), iff_of_false (by decide) (by omega),
        iff_of_false (by decide) (by omega)⟩
    · exact ⟨iff_of_false (by decide) (by omega), iff_of_true rfl (by omega),
        iff_of_false (by decide) (by omega), iff_of_false (by decide) (by omega),
        iff_of_false (by decide) (by omega)⟩
    · exact ⟨iff_of_false (by decide) (by omega), iff_of_false (by decide) (by omega),
        iff_of_true rfl (by omega), iff_of_false (by decide) (by omega),
        iff_of_false (by decide) (by omega)⟩
    · exact ⟨iff_of_false (by decide) (by omega), iff_of_false (by decide) (by omega),
        iff_of_false (by decide) (by omega), iff_of_true rfl (by omega),
        iff_of_false (by decide) (by omega)⟩
    · exact ⟨iff_of_false (by decide) (by omega), iff_of_false (by decide) (by omega),
        iff_of_false (by decide) (by omega), iff_of_false (by decide) (by omega),
        iff_of_true rfl (by omega)⟩

/-- C5: the priority scorer returns exactly
clamp(100 - days_until_deadline*5 - (estimated_duration or 0)*3, 1, 100),
with days_until_deadline = 0 when the deadline is absent; a deadline 5 days
out with duration 4 yields 63, and the result always lies in [1,100]. -/
theorem compute_score_is_clamped_formula :
    (∀ deadline estimated_duration,
      _compute_score deadline estimated_duration
        = compute_priority_spec deadline estimated_duration
      ∧ 1 ≤ _compute_score deadline estimated_duration
      ∧ _compute_score deadline estimated_duration ≤ 100)
    ∧ _compute_score (some 5) (some 4) = 63 := by
  refine ⟨fun dl d => ?_, by decide⟩
  unfold _compute_score compute_priority_spec
  rcases dl with _ | d0 <;> dsimp only <;> refine ⟨?_, ?_, ?_⟩ <;> omega

/-- C9: the complexity score is always at least 13 — the duration factor
contributes at least 5 points, the keyword factor at least 5 and the
description-length factor at least 3, so no score below 13 (in particular
the bottom of the advertised [0,115] range) is reachable. -/
theorem complexity_score_at_least_thirteen :
    ∀ title description estimated_duration deadline has_dependencies now,
      5 ≤ (durationFactor estimated_duration).1
      ∧ 5 ≤ (keywordFactor title description).1
      ∧ 3 ≤ (scopeFactor description).1
      ∧ 13 ≤ complexityScore title description estimated_duration deadline has_dependencies now := by
  intro t ds d dl dep now
  obtain ⟨ha, _⟩ := durationFactor_bounds d
  obtain ⟨hc, _⟩ := keywordFactor_bounds t ds
  obtain ⟨he, _⟩ := scopeFactor_bounds ds
  obtain ⟨hg, _⟩ := dependenciesFactor_bounds dep
  obtain ⟨hi, _⟩ := deadlineFactor_bounds dl now
  refine ⟨ha, hc, he, ?_⟩
  unfold complexityScore
  omega

/-- C10: for a fixed deadline the priority score is antitone in the
estimated duration (an absent duration counting as 0). -/
theorem compute_score_antitone_in_duration :
    ∀ (deadline d1 d2 : Option Int), orZero d1 ≤ orZero d2 →
      _compute_score deadline d2 ≤ _compute_score deadline d1 := by
  intro dl d1 d2 h
  unfold _compute_score
  rcases dl with _ | d0 <;> dsimp only <;> omega

/-- Witness for C10 at deadline absent, durations 2 and 5. -/
theorem compute_score_antitone_in_duration_witness :
    orZero (some 2) ≤ orZero (some 5)
    ∧ _compute_score none (some 5) ≤ _compute_score none (some 2) :=
  ⟨by decide, compute_score_antitone_in_duration none (some 2) (some 5) (by decide)⟩

end TaskIQ

namespace TaskIQ

/-- C2 counterexample: a present `estimated_duration` of 0 hours is falsy
in Python, so it takes the `unknown` branch and awards 10 points, not the
5 points of the `quick` bucket that the claim asserts. -/
theorem duration_zero_awards_ten_not_five :
    (durationFactor (some 0)).1 = 10 ∧ (durationFactor (some 0)).1 ≠ 5 := by decide

/-- C2 amended: for a present nonzero duration the factor uses inclusive
upper bounds — ≤2 awards 5, ≤8 awards 15, ≤24 awards 30, more awards 40 —
while an absent duration and a present duration of 0 both award 10 points
(the Python truthiness guard treats 0 like `None`). -/
theorem duration_factor_buckets :
    ∀ d : Int,
      ((d ≠ 0 ∧ d ≤ 2) → (durationFactor (some d)).1 = 5)
      ∧ ((2 < d ∧ d ≤ 8) → (durationFactor (some d)).1 = 15)
      ∧ ((8 < d ∧ d ≤ 24) → (durationFactor (some d)).1 = 30)
      ∧ (24 < d → (durationFactor (some d)).1 = 40)
      ∧ (durationFactor none).1 = 10
      ∧ (durationFactor (some 0)).1 = 10 := by
  intro d
  refine ⟨fun h => ?_, fun h => ?_, fun h => ?_, fun h => ?_, by decide, by decide⟩
  · rw [durationFactor_some_ne_zero d h.1, if_pos h.2]
  · rw [durationFactor_some_ne_zero d (by omega), if_neg (by omega), if_pos h.2]
  · rw [durationFactor_some_ne_zero d (by omega), if_neg (by omega), if_neg (by omega),
      if_pos h.2]
  · rw [durationFactor_some_ne_zero d (by omega), if_neg (by omega), if_neg (by omega),
      if_neg (by omega)]

/-- Witness for C2 (amended) at the bucket boundaries 2, 8, 24 and beyond. -/
theorem duration_factor_buckets_witness :
    ((2:Int) ≠ 0 ∧ (2:Int) ≤ 2 ∧ (durationFactor (some 2)).1 = 5)
    ∧ ((2:Int) < 8 ∧ (8:Int) ≤ 8 ∧ (durationFactor (some 8)).1 = 15)
    ∧ ((8:Int) < 24 ∧ (24:Int) ≤ 24 ∧ (durationFactor (some 24)).1 = 30)
    ∧ ((24:Int) < 25 ∧ (durationFactor (some 25)).1 = 40) :=
  ⟨⟨by decide, by decide, (duration_factor_buckets 2).1 ⟨by decide, by decide⟩⟩,
   ⟨by decide, by decide, (duration_factor_buckets 8).2.1 ⟨by decide, by decide⟩⟩,
   ⟨by decide, by decide, (duration_factor_buckets 24).2.2.1 ⟨by decide, by decide⟩⟩,
   ⟨by decide, (duration_factor_buckets 25).2.2.2.1 (by decide)⟩⟩

/-- C3: the `/ai/size` boundary rejects a request whose title is blank
(empty or whitespace-only) or whose estimated duration is negative: the
pipeline returns an error and never reaches the estimator. -/
theorem blank_title_or_negative_duration_rejected :
    ∀ (req : TaskSizeRequest) (now : Int),
      (pyStrip req.title = "" ∨ ∃ n, req.estimated_duration = some n ∧ n < 0) →
      ∃ e, ai_size req now = Except.error e := by
  intro req now h
  rcases h with hb | ⟨n, hn, hneg⟩
  · refine ⟨"Title cannot be empty", ?_⟩
    unfold ai_size
    rw [validate_title, if_pos (Or.inr hb)]
  · rcases hvt : validate_title req.title with e | v
    · exact ⟨e, by unfold ai_size; rw [hvt]⟩
    · refine ⟨"Estimated duration cannot be negative", ?_⟩
      unfold ai_size
      rw [hvt, hn]
      simp [validate_estimated_duration, hneg]

/-- Witness for C3: a whitespace-only title is rejected. -/
theorem blank_title_rejected_witness :
    (pyStrip (TaskSizeRequest.mk "   " none none none false).title = ""
      ∨ ∃ n, (TaskSizeRequest.mk "   " none none none false).estimated_duration = some n ∧ n < 0)
    ∧ ∃ e, ai_size (TaskSizeRequest.mk "   " none none none false) 0 = Except.error e :=
  ⟨Or.inl (by decide),
   blank_title_or_negative_duration_rejected (TaskSizeRequest.mk "   " none none none false) 0
     (Or.inl (by decide))⟩

/-- C4 counterexample: with every other field fixed, raising the present
duration from 0 to 1 lowers the complexity score (28 to 23), because a
present 0 is falsy and takes the 10-point `unknown` branch while 1 takes
the 5-point `quick` bucket. -/
theorem score_not_monotone_at_zero_duration :
    (0:Int) ≤ 1
    ∧ complexityScore "task" none (some 1) none false 0
        < complexityScore "task" none (some 0) none false 0 := by decide

/-- C4 amended: monotonicity does hold on present durations that are at
least 1 — with all other factors fixed, 1 ≤ d1 ≤ d2 implies the score at
d1 is at most the score at d2; a duration of 0 (or an absent one) falls
into the 10-point `unknown` branch, which breaks monotonicity at the
boundary to the 5-point `quick` bucket. -/
theorem score_monotone_in_positive_duration :
    ∀ (title : String) (description : Option String) (deadline : Option DeadlineVal)
      (has_dependencies : Bool) (now : Int) (d1 d2 : Int),
      1 ≤ d1 → d1 ≤ d2 →
      complexityScore title description (some d1) deadline has_dependencies now
        ≤ complexityScore title description (some d2) deadline has_dependencies now := by
  intro t ds dl dep now d1 d2 h1 h12
  unfold complexityScore
  have hd : (durationFactor (some d1)).1 ≤ (durationFactor (some d2)).1 := by
    rw [durationFactor_some_ne_zero d1 (by omega), durationFactor_some_ne_zero d2 (by omega)]
    split_ifs <;> omega
  omega

/-- Witness for C4 (amended) at durations 1 and 30. -/
theorem score_monotone_in_positive_duration_witness :
    (1:Int) ≤ 1 ∧ (1:Int) ≤ 30
    ∧ complexityScore "task" none (some 1) none false 0
        ≤ complexityScore "task" none (some 30) none false 0 :=
  ⟨by decide, by decide,
   score_monotone_in_positive_duration "task" none none false 0 1 30 (by decide) (by decide)⟩

end TaskIQ

namespace TaskIQ

/-- C6 counterexample: the empty string is a textual deadline on which
`dateutil.parser.parse` raises, yet the factor emits no parse-failure
clause at all — the `if deadline:` truthiness guard skips the factor
before the parse is attempted. -/
theorem empty_text_deadline_emits_no_clause :
    deadlineParse (DeadlineVal.text "" none) = none
    ∧ deadlineFactor (some (DeadlineVal.text "" none)) 0 = (0, []) := by decide

/-- C6 amended: an absent deadline contributes 0 points and no clause; a
non-empty textual deadline that fails to parse contributes 0 points and
the clause `deadline: could not parse`; an empty textual deadline is falsy
and is skipped like an absent one; a non-empty textual deadline that
parses behaves exactly like the parsed timestamp; and for a parsed
timestamp the buckets are evaluated in order with first match winning:
days_until < 0 gives 15, ≤ 1 gives 15, ≤ 3 gives 12, ≤ 7 gives 8, ≤ 14
gives 4, otherwise 0. -/
theorem deadline_factor_behaviour :
    ∀ now : Int,
      deadlineFactor none now = (0, [])
      ∧ (∀ raw p, raw ≠ "" → p = none →
          deadlineFactor (some (DeadlineVal.text raw p)) now
            = (0, ["deadline: could not parse"]))
      ∧ (∀ p, deadlineFactor (some (DeadlineVal.text "" p)) now = (0, []))
      ∧ (∀ raw t, raw ≠ "" →
          deadlineFactor (some (DeadlineVal.text raw (some t))) now
            = deadlineFactor (some (DeadlineVal.dt t)) now)
      ∧ (∀ t : Int,
          (daysUntil t now < 0 →
            (deadlineFactor (some (DeadlineVal.dt t)) now).1 = 15)
          ∧ (0 ≤ daysUntil t now → daysUntil t now ≤ 1 →
            (deadlineFactor (some (DeadlineVal.dt t)) now).1 = 15)
          ∧ (1 < daysUntil t now → daysUntil t now ≤ 3 →
            (deadlineFactor (some (DeadlineVal.dt t)) now).1 = 12)
          ∧ (3 < daysUntil t now → daysUntil t now ≤ 7 →
            (deadlineFactor (some (DeadlineVal.dt t)) now).1 = 8)
          ∧ (7 < daysUntil t now → daysUntil t now ≤ 14 →
            (deadlineFactor (some (DeadlineVal.dt t)) now).1 = 4)
          ∧ (14 < daysUntil t now →
            (deadlineFactor (some (DeadlineVal.dt t)) now).1 = 0)) := by
  intro now
  refine ⟨rfl, ?_, ?_, ?_, ?_⟩
  · intro raw p hraw hp
    subst hp
    simp [deadlineFactor, pyTruthyVal, deadlineParse, hraw]
  · intro p
    simp [deadlineFactor, pyTruthyVal]
  · intro raw t hraw
    simp [deadlineFactor, pyTruthyVal, deadlineParse, hraw]
  · intro t
    refine ⟨fun h0 => ?_, fun h0 h1 => ?_, fun h1 h3 => ?_, fun h3 h7 => ?_,
      fun h7 h14 => ?_, fun h14 => ?_⟩
    · rw [deadlineFactor_dt_fst, if_pos h0]
    · rw [deadlineFactor_dt_fst, if_neg (not_lt.mpr h0), if_pos h1]
    · rw [deadlineFactor_dt_fst, if_neg (by linarith), if_neg (by linarith), if_pos h3]
    · rw [deadlineFactor_dt_fst, if_neg (by linarith), if_neg (by linarith),
        if_neg (by linarith), if_pos h7]
    · rw [deadlineFactor_dt_fst, if_neg (by linarith), if_neg (by linarith),
        if_neg (by linarith), if_neg (by linarith), if_pos h14]
    · rw [deadlineFactor_dt_fst, if_neg (by linarith), if_neg (by linarith),
        if_neg (by linarith), if_neg (by linarith), if_neg (by linarith)]

/-- Witness for C6 (amended): an unparseable text, an overdue timestamp
and a two-days-out timestamp. -/
theorem deadline_factor_behaviour_witness :
    (("x" : String) ≠ ""
      ∧ deadlineFactor (some (DeadlineVal.text "x" none)) 0
          = (0, ["deadline: could not parse"]))
    ∧ (daysUntil (-86400) 0 < 0
      ∧ (deadlineFactor (some (DeadlineVal.dt (-86400))) 0).1 = 15)
    ∧ (1 < daysUntil 172800 0 ∧ daysUntil 172800 0 ≤ 3
      ∧ (deadlineFactor (some (DeadlineVal.dt 172800)) 0).1 = 12) :=
  ⟨⟨by decide, (deadline_factor_behaviour 0).2.1 "x" none (by decide) rfl⟩,
   ⟨by norm_num [daysUntil],
    ((deadline_factor_behaviour 0).2.2.2.2 (-86400)).1 (by norm_num [daysUntil])⟩,
   ⟨by norm_num [daysUntil], by norm_num [daysUntil],
    ((deadline_factor_behaviour 0).2.2.2.2 172800).2.2.1
      (by norm_num [daysUntil]) (by norm_num [daysUntil])⟩⟩

end TaskIQ

namespace TaskIQ

/-- C7 counterexample: the source scans `title.lower() + " " + desc.lower()`,
not the bare concatenation the claim describes.  With title `te` and
description `xt` the claimed scan text is `text`, which contains the
simple keyword `text` and no complex keyword, so the claim awards 5
points; the code scans `te xt`, matches nothing, and awards 15. -/
theorem keyword_scan_uses_space_separator :
    keywordFactorSpec "te" (some "xt") = (5, "complexity: low (simple task)")
    ∧ keywordFactor "te" (some "xt") = (15, "complexity: moderate (neutral)")
    ∧ (keywordFactor "te" (some "xt")).1 ≠ (keywordFactorSpec "te" (some "xt")).1 := by
  decide

/-- C7 amended: the scan text is the lower-cased title and description
joined by a single space; over that text, at least two complex-keyword
matches award 30 points, exactly one awards 20, otherwise at least one
simple-keyword match awards 5, and no match at all awards 15 — the
complex tier is checked before the simple tier. -/
theorem keyword_factor_tiers :
    ∀ (title : String) (description : Option String),
      (2 ≤ countMatches complex_keywords (combined_text title description) →
        keywordFactor title description
          = (30, "complexity: high (multiple complex keywords)"))
      ∧ (countMatches complex_keywords (combined_text title description) = 1 →
        keywordFactor title description
          = (20, "complexity: moderate (complex keywords)"))
      ∧ (countMatches complex_keywords (combined_text title description) = 0 →
        1 ≤ countMatches simple_keywords (combined_text title description) →
        keywordFactor title description = (5, "complexity: low (simple task)"))
      ∧ (countMatches complex_keywords (combined_text title description) = 0 →
        countMatches simple_keywords (combined_text title description) = 0 →
        keywordFactor title description = (15, "complexity: moderate (neutral)")) := by
  intro t ds
  refine ⟨fun h2 => ?_, fun h1 => ?_, fun h0 hs => ?_, fun h0 hs => ?_⟩ <;>
    · simp only [keywordFactor]
      split_ifs <;> first | rfl | omega

/-- Witness for C7 (amended): one input per tier. -/
theorem keyword_factor_tiers_witness :
    (2 ≤ countMatches complex_keywords (combined_text "security api" none)
      ∧ keywordFactor "security api" none
          = (30, "complexity: high (multiple complex keywords)"))
    ∧ (countMatches complex_keywords (combined_text "api stuff" none) = 1
      ∧ keywordFactor "api stuff" none
          = (20, "complexity: moderate (complex keywords)"))
    ∧ (countMatches complex_keywords (combined_text "fix it" none) = 0
      ∧ 1 ≤ countMatches simple_keywords (combined_text "fix it" none)
      ∧ keywordFactor "fix it" none = (5, "complexity: low (simple task)"))
    ∧ (countMatches complex_keywords (combined_text "hello" none) = 0
      ∧ countMatches simple_keywords (combined_text "hello" none) = 0
      ∧ keywordFactor "hello" none = (15, "complexity: moderate (neutral)")) :=
  ⟨⟨by decide, (keyword_factor_tiers "security api" none).1 (by decide)⟩,
   ⟨by decide, (keyword_factor_tiers "api stuff" none).2.1 (by decide)⟩,
   ⟨by decide, by decide,
    (keyword_factor_tiers "fix it" none).2.2.1 (by decide) (by decide)⟩,
   ⟨by decide, by decide,
    (keyword_factor_tiers "hello" none).2.2.2 (by decide) (by decide)⟩⟩

/-- C8 counterexample: a supplied deadline need not produce a deadline
clause — the empty-string textual deadline is falsy, so the rationale for
it lists only the three always-present factors. -/
theorem deadline_supplied_without_clause :
    some (DeadlineVal.text "" none) ≠ (none : Option DeadlineVal)
    ∧ factorsList "task" none none (some (DeadlineVal.text "" none)) false 0
        = ["duration: unknown (assumed moderate)",
           "complexity: moderate (neutral)",
           "scope: brief requirements"] := by decide

/-- C8 amended: the rationale is `Score: {score}/115. Factors: ` followed
by the factor clauses joined by `; ` in the fixed order duration,
keywords, description length, dependencies, deadline; the three leading
factors always contribute exactly one clause each, the dependencies
clause appears iff `has_dependencies` is true, the deadline clause
appears iff a truthy (non-falsy) deadline was supplied, and the rationale
is never empty. -/
theorem rationale_structure :
    ∀ title description estimated_duration deadline has_dependencies now,
      rationaleOf title description estimated_duration deadline has_dependencies now
        = "Score: "
            ++ toString (complexityScore title description estimated_duration deadline
                has_dependencies now)
            ++ "/115. Factors: "
            ++ String.intercalate "; "
                (factorsList title description estimated_duration deadline has_dependencies now)
      ∧ (factorsList title description estimated_duration deadline has_dependencies now).length
          = 3 + (if has_dependencies then 1 else 0) + (if deadlineTruthy deadline then 1 else 0)
      ∧ ((dependenciesFactor has_dependencies).2 ≠ [] ↔ has_dependencies = true)
      ∧ ((deadlineFactor deadline now).2 ≠ [] ↔ deadlineTruthy deadline = true)
      ∧ rationaleOf title description estimated_duration deadline has_dependencies now ≠ "" := by
  intro t ds d dl dep now
  refine ⟨rfl, ?_, ?_, ?_, ?_⟩
  · have h4 := dependenciesFactor_snd_length dep
    have h5 := deadlineFactor_snd_length dl now
    simp only [factorsList, List.length_append, List.length_cons, List.length_nil]
    omega
  · cases dep <;> simp [dependenciesFactor]
  · have h5 := deadlineFactor_snd_length dl now
    rw [← List.length_pos, h5]
    cases deadlineTruthy dl <;> simp
  · intro hcon
    have h6 := congrArg String.length hcon
    simp only [rationaleOf, String.length_append, String.length_empty] at h6
    have h7 : ("Score: ").length = 7 := by decide
    omega

end TaskIQ
